import Mathlib

/-!
Verification of the two core components of the Daily C-arm Market
Intelligence pipeline:

* `GitHubModelsClient.generate` (src/utils/githubModels.py) — a retrying
  completion client with linear-times-constant backoff on HTTP 429 and
  typed terminal failures for 401/403/other errors.
* `WebSearchClient.search_news` / `search_multiple_topics`
  (src/utils/webSearch.py) — a per-category, per-keyword search
  aggregator that deduplicates articles by link, first occurrence wins.

The embedding is shallow: the HTTP backend and the search provider are
modelled as explicit response functions, and the Python control flow is
translated into structurally recursive Lean functions.
-/

namespace CarmIntel

/-! ## Embedding of src/utils/githubModels.py -/

/-- Outcome of parsing a response body: either the expected
`choices[0].message.content` structure holding `text`, or anything
that makes the extraction raise (missing keys, non-JSON body, ...). -/
inductive Body where
  | good (text : String)
  | malformed
deriving DecidableEq, Repr

/-- What one call to `requests.post` yields: an HTTP response with a
status code and a body, or a raised transport exception (timeout,
connection failure). -/
inductive Resp where
  | http (status : Nat) (body : Body)
  | exn
deriving DecidableEq, Repr

/-- Typed classification of the terminal failures `generate` can raise. -/
inductive ErrorKind where
  | rateLimitExhausted
  | invalidCredentials
  | accessDenied
  | apiError
  | transportError
  | malformedResponse
deriving DecidableEq, Repr

/-- Result of `generate`: either the extracted text or a typed error. -/
inductive GenResult where
  | ok (text : String)
  | err (kind : ErrorKind)
deriving DecidableEq, Repr

/-- Observable outcome of one `generate` call: its result, the number of
backend (`requests.post`) calls it made, and the list of `time.sleep`
delays it performed, in order. -/
structure GenOutcome where
  result : GenResult
  calls : Nat
  sleeps : List Nat
deriving DecidableEq, Repr

/-- The retry loop body of `GitHubModelsClient.generate`.  `responses i`
is what the backend answers on the attempt with 0-based index `i`;
`remaining` is the number of loop iterations left (`maxRetries - attempt`).
`requests.Response.raise_for_status` raises exactly for status codes in
`[400, 600)`; on 429 the code sleeps `baseDelay * (attempt + 1) * 2` and
continues, on 401/403/other HTTP errors it raises a typed RuntimeError,
and any other exception (including a malformed 2xx body) is re-raised.
When the loop exhausts, it raises the rate-limit-exceeded error. -/
def genFrom (responses : Nat → Resp) (baseDelay : Nat) (attempt : Nat) : Nat → GenOutcome
  | 0 => ⟨.err .rateLimitExhausted, 0, []⟩
  | remaining + 1 =>
    match responses attempt with
    | .exn => ⟨.err .transportError, 1, []⟩
    | .http status body =>
      if 400 ≤ status ∧ status < 600 then
        if status = 429 then
          let waitTime := baseDelay * (attempt + 1) * 2
          let rest := genFrom responses baseDelay (attempt + 1) remaining
          ⟨rest.result, rest.calls + 1, waitTime :: rest.sleeps⟩
        else if status = 401 then ⟨.err .invalidCredentials, 1, []⟩
        else if status = 403 then ⟨.err .accessDenied, 1, []⟩
        else ⟨.err .apiError, 1, []⟩
      else
        match body with
        | .good t => ⟨.ok t, 1, []⟩
        | .malformed => ⟨.err .malformedResponse, 1, []⟩

/-- `GitHubModelsClient.generate`: run the retry loop from attempt 0 with
the configured retry budget.  The source constructor fixes
`maxRetries = 3` and `baseDelay = 5`. -/
def generate (responses : Nat → Resp) (maxRetries : Nat) (baseDelay : Nat) : GenOutcome :=
  genFrom responses baseDelay 0 maxRetries

/-- Unfolding of one 429 iteration of the retry loop: the client sleeps
`baseDelay * (attempt + 1) * 2` and continues with the next attempt. -/
theorem genFrom_succ_429 (responses : Nat → Resp) (b : Body) (baseDelay a n : Nat)
    (ha : responses a = Resp.http 429 b) :
    genFrom responses baseDelay a (n + 1) =
      ⟨(genFrom responses baseDelay (a + 1) n).result,
       (genFrom responses baseDelay (a + 1) n).calls + 1,
       baseDelay * (a + 1) * 2 :: (genFrom responses baseDelay (a + 1) n).sleeps⟩ := by
  rw [genFrom, ha]
  norm_num

/-- When every attempt is answered 429, the loop consumes its whole
budget, sleeping `baseDelay * (attemptNumber) * 2` after each attempt,
and ends rate-limit exhausted. -/
theorem genFrom_all429 (responses : Nat → Resp) (b : Body) (baseDelay : Nat)
    (h : ∀ i, responses i = Resp.http 429 b) :
    ∀ r a, genFrom responses baseDelay a r =
      ⟨.err .rateLimitExhausted, r,
        (List.range r).map (fun i => baseDelay * (a + i + 1) * 2)⟩ := by
  intro r
  induction r with
  | zero => intro a; simp [genFrom]
  | succ n ih =>
    intro a
    have hl : (List.range (n + 1)).map (fun i => baseDelay * (a + i + 1) * 2) =
        baseDelay * (a + 1) * 2 ::
          (List.range n).map (fun i => baseDelay * (a + 1 + i + 1) * 2) := by
      rw [List.range_succ_eq_map, List.map_cons, List.map_map]
      have h1 : baseDelay * (a + 0 + 1) * 2 = baseDelay * (a + 1) * 2 := by norm_num
      have h2 : (List.range n).map ((fun i => baseDelay * (a + i + 1) * 2) ∘ Nat.succ) =
          (List.range n).map (fun i => baseDelay * (a + 1 + i + 1) * 2) :=
        List.map_congr_left (fun i _ => by
          simp only [Function.comp_apply, Nat.succ_eq_add_one]; ring)
      rw [h1, h2]
    rw [genFrom_succ_429 responses b baseDelay a n (h a), ih (a + 1), hl]

/-- C1: if the backend answers HTTP 429 on every attempt, `generate`
with the source's default configuration (maxRetries = 3, baseDelay = 5)
makes exactly 3 backend calls, sleeps `baseDelay * attemptNumber * 2`
after each attempt — a strictly increasing sequence of delays — and ends
with the terminal failure RateLimitExhausted. -/
theorem generate_429_every_attempt (responses : Nat → Resp) (b : Body)
    (h : ∀ i, responses i = Resp.http 429 b) :
    (generate responses 3 5).result = .err .rateLimitExhausted ∧
    (generate responses 3 5).calls = 3 ∧
    (generate responses 3 5).sleeps = [5 * 1 * 2, 5 * 2 * 2, 5 * 3 * 2] ∧
    List.Chain' (· < ·) (generate responses 3 5).sleeps := by
  rw [generate, genFrom_all429 responses b 5 h 3 0]
  have hl : (List.range 3).map (fun i => 5 * (0 + i + 1) * 2) =
      [5 * 1 * 2, 5 * 2 * 2, 5 * 3 * 2] := by decide
  refine ⟨rfl, rfl, hl, ?_⟩
  show List.Chain' (· < ·) ((List.range 3).map (fun i => 5 * (0 + i + 1) * 2))
  rw [hl]
  norm_num [List.chain'_cons, List.chain'_singleton]

/-- Backend that answers 429 on every attempt. -/
def resp429 : Nat → Resp := fun _ => Resp.http 429 Body.malformed

/-- Witness for C1 at the concrete all-429 backend. -/
theorem generate_429_every_attempt_witness :
    (generate resp429 3 5).result = .err .rateLimitExhausted ∧
    (generate resp429 3 5).calls = 3 ∧
    (generate resp429 3 5).sleeps = [5 * 1 * 2, 5 * 2 * 2, 5 * 3 * 2] ∧
    List.Chain' (· < ·) (generate resp429 3 5).sleeps :=
  generate_429_every_attempt resp429 Body.malformed (fun _ => rfl)

/-- C6: an HTTP 401 answer on the first attempt makes `generate`
terminate immediately with InvalidCredentials after exactly one backend
call and no sleep; an HTTP 403 answer likewise terminates immediately
with AccessDenied. -/
theorem generate_auth_error_no_retry (responses : Nat → Resp)
    (maxRetries baseDelay status : Nat) (b : Body)
    (hmr : 0 < maxRetries) (hs : status = 401 ∨ status = 403)
    (h0 : responses 0 = Resp.http status b) :
    generate responses maxRetries baseDelay =
      ⟨.err (if status = 401 then .invalidCredentials else .accessDenied), 1, []⟩ := by
  obtain ⟨n, rfl⟩ := Nat.exists_eq_succ_of_ne_zero (Nat.pos_iff_ne_zero.mp hmr)
  rw [generate, genFrom, h0]
  rcases hs with rfl | rfl <;> norm_num

/-- Backend that answers 401 on every attempt. -/
def resp401 : Nat → Resp := fun _ => Resp.http 401 Body.malformed

/-- Backend that answers 403 on every attempt. -/
def resp403 : Nat → Resp := fun _ => Resp.http 403 Body.malformed

/-- Witness for C6 at concrete 401-answering and 403-answering backends. -/
theorem generate_auth_error_no_retry_witness :
    generate resp401 3 5 = ⟨.err .invalidCredentials, 1, []⟩ ∧
    generate resp403 3 5 = ⟨.err .accessDenied, 1, []⟩ := by
  constructor
  · have h := generate_auth_error_no_retry resp401 3 5 401 Body.malformed
      (by decide) (Or.inl rfl) rfl
    simpa using h
  · have h := generate_auth_error_no_retry resp403 3 5 403 Body.malformed
      (by decide) (Or.inr rfl) rfl
    simpa using h

/-- C8: a 2xx answer whose body lacks the expected
`choices[0].message.content` structure makes `generate` terminate on
that first attempt with MalformedResponse, after exactly one backend
call and with no retry. -/
theorem generate_malformed_2xx_terminal (responses : Nat → Resp)
    (maxRetries baseDelay status : Nat)
    (hmr : 0 < maxRetries) (h2 : 200 ≤ status) (h3 : status < 300)
    (h0 : responses 0 = Resp.http status Body.malformed) :
    generate responses maxRetries baseDelay = ⟨.err .malformedResponse, 1, []⟩ := by
  obtain ⟨n, rfl⟩ := Nat.exists_eq_succ_of_ne_zero (Nat.pos_iff_ne_zero.mp hmr)
  rw [generate, genFrom, h0]
  have hns : ¬(400 ≤ status ∧ status < 600) := by omega
  simp [hns]

/-- Backend that answers 200 with a malformed body on every attempt. -/
def resp200bad : Nat → Resp := fun _ => Resp.http 200 Body.malformed

/-- Witness for C8 at a concrete malformed-200 backend. -/
theorem generate_malformed_2xx_terminal_witness :
    generate resp200bad 3 5 = ⟨.err .malformedResponse, 1, []⟩ :=
  generate_malformed_2xx_terminal resp200bad 3 5 200 (by decide) (by decide)
    (by decide) rfl

/-! ## Embedding of src/utils/webSearch.py -/

/-- A raw result dictionary as returned by `ddgs.news`: each field may be
absent (`result.get` is used with a default in the source). -/
structure RawResult where
  title : Option String
  url : Option String
  body : Option String
  source : Option String
  date : Option String
  image : Option String
deriving DecidableEq, Repr

/-- An article dictionary as built by `search_news`.  All provider
fields are present, defaulted to the empty string; the `category` key is
only added later by `search_multiple_topics`, hence an `Option`. -/
structure Article where
  title : String
  link : String
  snippet : String
  source : String
  date : String
  image : String
  query_category : String
  category : Option String
deriving DecidableEq, Repr

/-- The article-building loop body of `search_news`: every field is
`result.get(key, "")`, plus the query echoed in `query_category`. -/
def toArticle (query : String) (r : RawResult) : Article :=
  { title := r.title.getD ""
    link := r.url.getD ""
    snippet := r.body.getD ""
    source := r.source.getD ""
    date := r.date.getD ""
    image := r.image.getD ""
    query_category := query
    category := none }

/-- Behaviour of the `ddgs.news` provider call: for a given query,
max_results bound and time period it either raises (`none`) or returns a
list of raw result dictionaries. -/
def Provider : Type :=
  String → Nat → String → Option (List RawResult)

/-- `WebSearchClient.search_news`: call the provider inside a try block;
on any exception return the empty list, otherwise build one article per
raw result. -/
def search_news (provider : Provider) (query : String) (max_results : Nat)
    (time_period : String) : List Article :=
  match provider query max_results time_period with
  | none => []
  | some results => results.map (toArticle query)

/-- The per-article dedup step of `search_multiple_topics`: the
accumulator is the pair (category_articles, seen_links); an article is
appended, with the category key written into it, iff its link is
non-empty and not yet seen. -/
def dedupStep (category : String) (acc : List Article × List String)
    (article : Article) : List Article × List String :=
  if article.link ≠ "" ∧ article.link ∉ acc.2 then
    (acc.1 ++ [{ article with category := some category }], article.link :: acc.2)
  else acc

/-- The per-keyword step of `search_multiple_topics`: search the keyword
with the configured results_per_query and the fixed "w" time period,
then fold the dedup step over the returned articles. -/
def addKeyword (provider : Provider) (results_per_query : Nat) (category : String)
    (acc : List Article × List String) (keyword : String) :
    List Article × List String :=
  (search_news provider keyword results_per_query "w").foldl (dedupStep category) acc

/-- The per-category accumulation of `search_multiple_topics`: fold the
keyword step over the category's keywords, starting from an empty
accumulator and an empty seen-link set. -/
def categoryArticles (provider : Provider) (results_per_query : Nat)
    (category : String) (keywords : List String) : List Article :=
  (keywords.foldl (addKeyword provider results_per_query category) ([], [])).1

/-- `WebSearchClient.search_multiple_topics`: one entry per input
category, in input order, each bound to its accumulated unique-article
list.  Topic sets are association lists, reflecting insertion-ordered
Python dicts. -/
def search_multiple_topics (provider : Provider)
    (topics : List (String × List String)) (results_per_query : Nat) :
    List (String × List Article) :=
  topics.map (fun p => (p.1, categoryArticles provider results_per_query p.1 p.2))

/-- Invariant maintained by the dedup accumulator of one category: links
are pairwise distinct, every retained link is recorded as seen, no
retained link is empty, and every retained article carries the category
key. -/
def DedupInv (category : String) (acc : List Article × List String) : Prop :=
  (acc.1.map Article.link).Nodup ∧
  (∀ a ∈ acc.1, a.link ∈ acc.2) ∧
  (∀ a ∈ acc.1, a.link ≠ "") ∧
  (∀ a ∈ acc.1, a.category = some category)

/-- One dedup step preserves the accumulator invariant. -/
theorem dedupStep_preserves (category : String)
    (acc : List Article × List String) (article : Article)
    (h : DedupInv category acc) :
    DedupInv category (dedupStep category acc article) := by
  obtain ⟨hnd, hseen, hne, hcat⟩ := h
  rw [dedupStep]
  split
  · rename_i hc
    obtain ⟨hlink, hnotseen⟩ := hc
    refine ⟨?_, ?_, ?_, ?_⟩
    · rw [List.map_append, List.nodup_append]
      refine ⟨hnd, by simp, ?_⟩
      intro l hl
      simp only [List.map_cons, List.map_nil, List.mem_singleton]
      intro hlv
      obtain ⟨a, ha, rfl⟩ := List.mem_map.mp hl
      exact hnotseen (hlv ▸ hseen a ha)
    · intro a ha
      rcases List.mem_append.mp ha with h1 | h1
      · exact List.mem_cons_of_mem _ (hseen a h1)
      · simp only [List.mem_singleton] at h1
        subst h1
        exact List.mem_cons_self _ _
    · intro a ha
      rcases List.mem_append.mp ha with h1 | h1
      · exact hne a h1
      · simp only [List.mem_singleton] at h1
        subst h1
        exact hlink
    · intro a ha
      rcases List.mem_append.mp ha with h1 | h1
      · exact hcat a h1
      · simp only [List.mem_singleton] at h1
        subst h1
        rfl
  · exact ⟨hnd, hseen, hne, hcat⟩

/-- A fold preserves any predicate its step function preserves. -/
theorem foldl_preserves {α β : Type} (P : β → Prop) (f : β → α → β)
    (hf : ∀ b a, P b → P (f b a)) :
    ∀ (l : List α) (init : β), P init → P (l.foldl f init) := by
  intro l
  induction l with
  | nil => intro init h; exact h
  | cons x xs ih =>
    intro init h
    exact ih (f init x) (hf init x h)

/-- The whole per-category accumulation satisfies the invariant. -/
theorem categoryArticles_inv (provider : Provider) (results_per_query : Nat)
    (category : String) (keywords : List String) :
    DedupInv category
      (keywords.foldl (addKeyword provider results_per_query category) ([], [])) := by
  refine foldl_preserves (DedupInv category) _ ?_ keywords ([], []) ?_
  · intro acc kw h
    exact foldl_preserves (DedupInv category) (dedupStep category)
      (dedupStep_preserves category) _ acc h
  · exact ⟨List.nodup_nil, by simp, by simp, by simp⟩

/-- Folding keywords whose searches all come back empty leaves the
accumulator unchanged. -/
theorem addKeyword_empty (provider : Provider) (rpq : Nat) (c : String)
    (kws : List String)
    (h : ∀ kw ∈ kws, search_news provider kw rpq "w" = []) :
    ∀ acc, kws.foldl (addKeyword provider rpq c) acc = acc := by
  induction kws with
  | nil => intro acc; rfl
  | cons kw rest ih =>
    intro acc
    rw [List.foldl_cons]
    have hk : addKeyword provider rpq c acc kw = acc := by
      rw [addKeyword, h kw (List.mem_cons_self _ _)]
      rfl
    rw [hk]
    exact ih (fun k hm => h k (List.mem_cons_of_mem _ hm)) acc

/-- C2: for every provider and every topic set, the aggregator's output
has exactly the input topic set's keys (in order); and a category all of
whose keyword searches come back empty is bound to the empty list, never
left absent. -/
theorem aggregate_key_set_exact (provider : Provider)
    (topics : List (String × List String)) (rpq : Nat)
    (c : String) (kws : List String) :
    ((search_multiple_topics provider topics rpq).map Prod.fst =
      topics.map Prod.fst) ∧
    ((c, kws) ∈ topics →
      (∀ kw ∈ kws, search_news provider kw rpq "w" = []) →
      (c, ([] : List Article)) ∈ search_multiple_topics provider topics rpq) := by
  constructor
  · rw [search_multiple_topics, List.map_map]
    exact List.map_congr_left (fun p _ => rfl)
  · intro hmem hempty
    have hcat : categoryArticles provider rpq c kws = [] := by
      rw [categoryArticles, addKeyword_empty provider rpq c kws hempty ([], [])]
    refine List.mem_map.mpr ⟨(c, kws), hmem, ?_⟩
    show (c, categoryArticles provider rpq c kws) = (c, [])
    rw [hcat]

/-- Provider that raises on every call. -/
def providerFailAll : Provider := fun _ _ _ => none

/-- Witness for C2 at a one-category topic set whose only keyword search
fails, discharging the inner membership and all-empty hypotheses. -/
theorem aggregate_key_set_exact_witness :
    ((search_multiple_topics providerFailAll [("c1", ["k1"])] 8).map Prod.fst =
      [("c1", ["k1"])].map Prod.fst) ∧
    ("c1", ([] : List Article)) ∈
      search_multiple_topics providerFailAll [("c1", ["k1"])] 8 :=
  ⟨(aggregate_key_set_exact providerFailAll [("c1", ["k1"])] 8 "c1" ["k1"]).1,
   (aggregate_key_set_exact providerFailAll [("c1", ["k1"])] 8 "c1" ["k1"]).2
     (List.mem_singleton.mpr rfl) (fun _ _ => rfl)⟩

/-- C3: within one category of the aggregator's output, no two articles
share a link. -/
theorem aggregate_links_nodup (provider : Provider)
    (topics : List (String × List String)) (rpq : Nat)
    (c : String) (l : List Article)
    (h : (c, l) ∈ search_multiple_topics provider topics rpq) :
    (l.map Article.link).Nodup := by
  rw [search_multiple_topics] at h
  obtain ⟨p, hp, heq⟩ := List.mem_map.mp h
  injection heq with h1 h2
  rw [← h2, categoryArticles]
  exact (categoryArticles_inv provider rpq p.1 p.2).1

/-- C5: a keyword whose provider call raises contributes nothing: the
category's accumulated list is the same as if that keyword were absent,
and the surrounding keywords' results are kept. -/
theorem keyword_failure_isolated (provider : Provider) (rpq : Nat)
    (c kw : String) (kws1 kws2 : List String)
    (hfail : provider kw rpq "w" = none) :
    categoryArticles provider rpq c (kws1 ++ kw :: kws2) =
      categoryArticles provider rpq c (kws1 ++ kws2) := by
  rw [categoryArticles, categoryArticles, List.foldl_append, List.foldl_append,
    List.foldl_cons]
  have hk : ∀ acc, addKeyword provider rpq c acc kw = acc := by
    intro acc
    rw [addKeyword, search_news, hfail]
    rfl
  rw [hk]

/-- C7: an article whose link is empty is never present in the
aggregator's output. -/
theorem aggregate_no_empty_link (provider : Provider)
    (topics : List (String × List String)) (rpq : Nat)
    (c : String) (l : List Article) (a : Article)
    (h : (c, l) ∈ search_multiple_topics provider topics rpq)
    (ha : a ∈ l) :
    a.link ≠ "" := by
  rw [search_multiple_topics] at h
  obtain ⟨p, hp, heq⟩ := List.mem_map.mp h
  injection heq with h1 h2
  rw [← h2, categoryArticles] at ha
  exact (categoryArticles_inv provider rpq p.1 p.2).2.2.1 a ha

/-- C9: every article retained in the aggregator's output carries the
category key under which it appears. -/
theorem aggregate_category_written (provider : Provider)
    (topics : List (String × List String)) (rpq : Nat)
    (c : String) (l : List Article) (a : Article)
    (h : (c, l) ∈ search_multiple_topics provider topics rpq)
    (ha : a ∈ l) :
    a.category = some c := by
  rw [search_multiple_topics] at h
  obtain ⟨p, hp, heq⟩ := List.mem_map.mp h
  injection heq with h1 h2
  rw [← h2, categoryArticles] at ha
  rw [← h1]
  exact (categoryArticles_inv provider rpq p.1 p.2).2.2.2 a ha

/-- Raw provider result with link "x". -/
def rawX : RawResult :=
  ⟨some "tX", some "x", some "bX", some "sX", some "dX", some "iX"⟩

/-- Raw provider result with link "y", returned by the first keyword. -/
def rawY : RawResult :=
  ⟨some "tY", some "y", some "bY", some "sY", some "dY", some "iY"⟩

/-- Raw provider result with the same link "y" but different content,
returned by the second keyword; dedup must drop it. -/
def rawY2 : RawResult :=
  ⟨some "tY2", some "y", some "bY2", some "sY2", some "dY2", some "iY2"⟩

/-- Raw provider result with link "z". -/
def rawZ : RawResult :=
  ⟨some "tZ", some "z", some "bZ", some "sZ", some "dZ", some "iZ"⟩

/-- Provider for the C4 scenario: q1 returns links [x, y] and q2 returns
links [y, z]. -/
def providerC4 : Provider := fun q _ _ =>
  if q = "q1" then some [rawX, rawY]
  else if q = "q2" then some [rawY2, rawZ]
  else some []

/-- The article kept for link "x" in the C4 scenario. -/
def artX : Article :=
  { title := "tX", link := "x", snippet := "bX", source := "sX", date := "dX",
    image := "iX", query_category := "q1", category := some "catA" }

/-- The article kept for link "y" in the C4 scenario: the one from q1,
fields unmodified; the q2 duplicate rawY2 is discarded. -/
def artY : Article :=
  { title := "tY", link := "y", snippet := "bY", source := "sY", date := "dY",
    image := "iY", query_category := "q1", category := some "catA" }

/-- The article kept for link "z" in the C4 scenario. -/
def artZ : Article :=
  { title := "tZ", link := "z", snippet := "bZ", source := "sZ", date := "dZ",
    image := "iZ", query_category := "q2", category := some "catA" }

/-- C4: in the concrete scenario topics = {"catA": ["q1","q2"]} with q1
returning links [x, y] and q2 returning links [y, z], the aggregator
keeps the articles with links [x, y, z] in that order; the first
occurrence of "y" (from q1) is retained with its provider fields
unmodified, the later duplicate is silently discarded. -/
theorem aggregate_dedup_first_wins :
    search_multiple_topics providerC4 [("catA", ["q1", "q2"])] 8 =
      [("catA", [artX, artY, artZ])] := by
  decide

/-- Witness for C3 at the C4 scenario instance. -/
theorem aggregate_links_nodup_witness :
    (([artX, artY, artZ]).map Article.link).Nodup :=
  aggregate_links_nodup providerC4 [("catA", ["q1", "q2"])] 8 "catA"
    [artX, artY, artZ] (by decide)

/-- Provider that raises exactly on the keyword "bad". -/
def providerFailBad : Provider := fun q _ _ =>
  if q = "bad" then none else some [rawX]

/-- Witness for C5: dropping the raising keyword "bad" leaves the
category's accumulated articles unchanged. -/
theorem keyword_failure_isolated_witness :
    categoryArticles providerFailBad 8 "cat" (["g1"] ++ "bad" :: ["g2"]) =
      categoryArticles providerFailBad 8 "cat" (["g1"] ++ ["g2"]) :=
  keyword_failure_isolated providerFailBad 8 "cat" "bad" ["g1"] ["g2"] (by decide)

/-- Witness for C7 at the C4 scenario instance. -/
theorem aggregate_no_empty_link_witness :
    artX.link ≠ "" :=
  aggregate_no_empty_link providerC4 [("catA", ["q1", "q2"])] 8 "catA"
    [artX, artY, artZ] artX (by decide) (by decide)

/-- Witness for C9 at the C4 scenario instance. -/
theorem aggregate_category_written_witness :
    artZ.category = some "catA" :=
  aggregate_category_written providerC4 [("catA", ["q1", "q2"])] 8 "catA"
    [artX, artY, artZ] artZ (by decide) (by decide)

/-- C10: every article `search_news` returns comes from an actual
provider result list (so a raising provider yields the empty list, and
no exception escapes), and each of its fields is the corresponding
provider field or the empty string when that field was absent — in
particular the publication date is never absent, and the query is echoed
in query_category. -/
theorem search_news_total_and_defaulted (provider : Provider) (q : String)
    (n : Nat) (t : String) (a : Article)
    (ha : a ∈ search_news provider q n t) :
    ∃ rs r, provider q n t = some rs ∧ r ∈ rs ∧
      a.title = r.title.getD "" ∧ a.link = r.url.getD "" ∧
      a.snippet = r.body.getD "" ∧ a.source = r.source.getD "" ∧
      a.date = r.date.getD "" ∧ a.image = r.image.getD "" ∧
      a.query_category = q ∧ a.category = none := by
  cases hp : provider q n t with
  | none =>
    rw [search_news, hp] at ha
    simp at ha
  | some rs =>
    rw [search_news, hp] at ha
    obtain ⟨r, hr, rfl⟩ := List.mem_map.mp ha
    exact ⟨rs, r, rfl, hr, rfl, rfl, rfl, rfl, rfl, rfl, rfl, rfl⟩

/-- Raw provider result whose only present field is the link. -/
def rawBare : RawResult := ⟨none, some "u", none, none, none, none⟩

/-- Provider returning a single raw result with every optional field
absent except the link. -/
def providerBare : Provider := fun _ _ _ => some [rawBare]

/-- Witness for C10 at an article built from an almost-empty raw
result: all defaulted fields are the empty string. -/
theorem search_news_total_and_defaulted_witness :
    ∃ rs r, providerBare "carm" 8 "w" = some rs ∧ r ∈ rs ∧
      (toArticle "carm" rawBare).title = r.title.getD "" ∧
      (toArticle "carm" rawBare).link = r.url.getD "" ∧
      (toArticle "carm" rawBare).snippet = r.body.getD "" ∧
      (toArticle "carm" rawBare).source = r.source.getD "" ∧
      (toArticle "carm" rawBare).date = r.date.getD "" ∧
      (toArticle "carm" rawBare).image = r.image.getD "" ∧
      (toArticle "carm" rawBare).query_category = "carm" ∧
      (toArticle "carm" rawBare).category = none :=
  search_news_total_and_defaulted providerBare "carm" 8 "w"
    (toArticle "carm" rawBare) (by decide)

end CarmIntel
